import Mathlib

/-!
Verification of the proxcheck proxy-verification engine against its
natural-language specification.  Go source is shallowly embedded: pure Go
functions become Lean functions, Go `int` becomes `Int` (values stay far from
overflow in every claim considered), Go maps keyed by proxy name become
association lists, and fallible operations return `Except` or `Option`.
Components whose source is not part of the repository snapshot (the
`proxytestlib` checker, xray generator and runner packages) are modelled from
the specification text; each such definition carries a doc comment starting
with `Modelled from the spec:`.
-/

namespace ProxCheck

/-- The Go field `TLS interface{}` of `RawConfig`: at runtime it is a JSON
value that is either a string, a boolean, or anything else (including
absent/nil), matching the three arms of the `switch v := raw.TLS.(type)`
type switch (`string`, `bool`, `default`). -/
inductive TLSValue where
  | str (v : String)
  | boolean (b : Bool)
  | other
deriving DecidableEq, Repr

/-- `RawConfig` from the loader (src/unnamed/part_000).  Field defaults mirror
Go zero values.  The Go field `Type` is named `type` here (`Type` is reserved
in Lean). -/
structure RawConfig where
  type : String := ""
  Server : String := ""
  Port : Int := 0
  UUID : String := ""
  AlterId : Int := 0
  Cipher : String := ""
  Network : String := ""
  TLS : TLSValue := .other
  SNI : String := ""
  Path : String := ""
  Host : String := ""
  Remarks : String := ""
  ALPN : String := ""
  Fingerprint : String := ""
  Password : String := ""
  Method : String := ""
deriving DecidableEq, Repr

/-- `models.ProxyConfig` as populated by `convertToProxyConfig` and
`xray.PrepareProxyConfigs`.  Defaults mirror Go zero values.  The Go field
`Type` (transport) is named `type` here. -/
structure ProxyConfig where
  Protocol : String := ""
  Server : String := ""
  Port : Int := 0
  Name : String := ""
  type : String := ""
  UUID : String := ""
  AlterId : Int := 0
  Security : String := ""
  SNI : String := ""
  Path : String := ""
  Host : String := ""
  Fingerprint : String := ""
  Method : String := ""
  Password : String := ""
  ALPN : List String := []
  Index : Nat := 0
deriving DecidableEq, Repr

/-- `cleanString` (src/unnamed/part_000 lines 106-119): every newline,
carriage return and tab is replaced by a space; all other characters are kept
unchanged. -/
def cleanString (s : String) : String :=
  s.data.foldl
    (fun result r =>
      if r ≠ '\n' ∧ r ≠ '\r' ∧ r ≠ '\t' then result ++ r.toString
      else result ++ " ")
    ""

/-- The tls-value resolution inside `convertToProxyConfig`
(src/unnamed/part_000 lines 57-70): a string is taken verbatim, a boolean
maps to "tls"/"none", anything else to "none". -/
def tlsValueOf : TLSValue → String
  | .str v => v
  | .boolean true => "tls"
  | .boolean false => "none"
  | .other => "none"

/-- The name assigned by `convertToProxyConfig` (src/unnamed/part_000 lines
42-47): the cleaned remarks, or the fallback `type-server-port` when the
cleaned remarks are empty. -/
def assignedName (raw : RawConfig) : String :=
  let cleanName := cleanString raw.Remarks
  if cleanName = "" then raw.type ++ "-" ++ raw.Server ++ "-" ++ toString raw.Port
  else cleanName

/-- `convertToProxyConfig` (src/unnamed/part_000 lines 42-103). -/
def convertToProxyConfig (raw : RawConfig) : ProxyConfig :=
  let config : ProxyConfig :=
    { Protocol := raw.type, Server := raw.Server, Port := raw.Port,
      Name := assignedName raw, type := raw.Network }
  let tlsValue := tlsValueOf raw.TLS
  let config :=
    if raw.type = "vmess" ∨ raw.type = "vless" then
      { config with
          UUID := raw.UUID, AlterId := raw.AlterId, Security := tlsValue,
          SNI := raw.SNI, Path := raw.Path, Host := raw.Host,
          Fingerprint := raw.Fingerprint,
          Method := if raw.Cipher ≠ "" ∧ raw.Cipher ≠ "auto" then raw.Cipher
                    else config.Method }
    else if raw.type = "shadowsocks" then
      { config with Password := raw.Password, Method := raw.Method }
    else if raw.type = "trojan" then
      { config with Password := raw.Password, Security := tlsValue, SNI := raw.SNI }
    else config
  if raw.ALPN ≠ "" then { config with ALPN := [raw.ALPN] } else config

/-- The validity filter in `main` (src/unnamed/part_000 lines 150-154): a raw
config is skipped when `Server == ""` or `Port == 0`. -/
def validRaw (raw : RawConfig) : Bool :=
  raw.Server ≠ "" && raw.Port ≠ 0

/-- The raw configs surviving the loading loop of `main`
(src/unnamed/part_000 lines 145-162): invalid entries are skipped, and the
loop breaks once `limit` configs have been accepted. -/
def keptRaws : List RawConfig → Nat → List RawConfig
  | [], _ => []
  | _, 0 => []
  | raw :: rest, Nat.succ k =>
    if validRaw raw then raw :: keptRaws rest k
    else keptRaws rest (Nat.succ k)

/-- The loading loop of `main` (src/unnamed/part_000 lines 145-162): each
surviving raw config is converted by `convertToProxyConfig`. -/
def loadConfigs : List RawConfig → Nat → List ProxyConfig
  | [], _ => []
  | _, 0 => []
  | raw :: rest, Nat.succ k =>
    if validRaw raw then convertToProxyConfig raw :: loadConfigs rest k
    else loadConfigs rest (Nat.succ k)

/-- Modelled from the spec: `xray.PrepareProxyConfigs` (package
`proxytestlib/xray`, source absent from the snapshot) assigns each config its
zero-based position as `Index`; `i` is the index of the first element. -/
def prepareFrom : Nat → List ProxyConfig → List ProxyConfig
  | _, [] => []
  | i, c :: rest => { c with Index := i } :: prepareFrom (i + 1) rest

/-- Modelled from the spec: `xray.PrepareProxyConfigs` assigns zero-based
indices deterministically in list order. -/
def PrepareProxyConfigs (cfgs : List ProxyConfig) : List ProxyConfig :=
  prepareFrom 0 cfgs

/-- Modelled from the spec: the local listener port is derived, not stored:
`localPort = startPort + index`. -/
def localPort (startPort : Nat) (c : ProxyConfig) : Nat :=
  startPort + c.Index

/-- `CheckResult`: outcome of one verification, stored in the Results Table
keyed by `ProxyName`. -/
structure CheckResult where
  ProxyName : String
  Success : Bool
  Latency : Nat
  Error : Option String
deriving DecidableEq, Repr

/-- The network-visible outcome of one verification-strategy call against one
local port: either success with a latency, or a classified failure message.
The checker is parametric in this outcome, so theorems quantify over every
mix of reachable and unreachable proxies. -/
inductive CheckOutcome where
  | success (latency : Nat)
  | failure (errMsg : String)
deriving DecidableEq, Repr

/-- Modelled from the spec: each verification unit wraps its outcome into a
`CheckResult` (failures are recorded with `Success := false` and the error
text, never propagated). -/
def mkCheckResult (c : ProxyConfig) : CheckOutcome → CheckResult
  | .success l => { ProxyName := c.Name, Success := true, Latency := l, Error := none }
  | .failure e => { ProxyName := c.Name, Success := false, Latency := 0, Error := some e }

/-- The Results Table: latest `CheckResult` per proxy name, as an association
list (a Go map with remembered insertion order). -/
abbrev ResultsTable := List (String × CheckResult)

/-- Modelled from the spec: the Results Table write path — insert-or-replace
under the checker's mutual-exclusion discipline. -/
def setResult (t : ResultsTable) (r : CheckResult) : ResultsTable :=
  if t.any (fun p => p.1 = r.ProxyName) then
    t.map (fun p => if p.1 = r.ProxyName then (p.1, r) else p)
  else t ++ [(r.ProxyName, r)]

/-- Modelled from the spec: `checker.CheckAllProxies` dispatches one
verification unit per config and waits for all of them; since every unit
writes exactly one `CheckResult` for its own distinct name under the table
lock, the final table is the left fold of the per-config writes. -/
def CheckAllProxies (outcome : ProxyConfig → CheckOutcome)
    (cfgs : List ProxyConfig) (t : ResultsTable) : ResultsTable :=
  cfgs.foldl (fun acc c => setResult acc (mkCheckResult c (outcome c))) t

/-- Modelled from the spec: `checker.GetProxyStatus` — read-only snapshot
lookup returning (success, latency, error), or a NotFoundError when the name
was never checked. -/
def GetProxyStatus (t : ResultsTable) (name : String) :
    Except String (Bool × Nat × Option String) :=
  match t.find? (fun p => p.1 = name) with
  | some p => .ok (p.2.Success, p.2.Latency, p.2.Error)
  | none => .error ("NotFoundError: proxy not found: " ++ name)

/-- Error taxonomy of the generation layer (spec section 7): a `ConfigError`
identifies the offending proxy by name; an I/O error carries the message of
the failed write. -/
inductive XrayError where
  | configError (proxyName : String) (protocol : String)
  | ioError (msg : String)
deriving DecidableEq, Repr

/-- The protocol enum of the spec data model: vmess, vless, shadowsocks,
trojan. -/
def supportedProtocols : List String :=
  ["vmess", "vless", "shadowsocks", "trojan"]

/-- One inbound listener block of the generated forwarder configuration. -/
structure Inbound where
  listenPort : Nat
  tag : String
deriving DecidableEq, Repr

/-- One outbound block of the generated forwarder configuration, carrying the
protocol-specific remote endpoint. -/
structure Outbound where
  tag : String
  protocol : String
  server : String
  serverPort : Int
deriving DecidableEq, Repr

/-- The generated forwarder configuration document: one inbound and one
outbound block per proxy. -/
structure XrayDoc where
  inbounds : List Inbound
  outbounds : List Outbound
deriving DecidableEq, Repr

/-- Modelled from the spec: the outbound builder of the config generator
fails fast with a `ConfigError` naming the proxy when its protocol is not a
supported enum value. -/
def buildOutbound (c : ProxyConfig) : Except XrayError Outbound :=
  if c.Protocol ∈ supportedProtocols then
    .ok { tag := c.Name, protocol := c.Protocol, server := c.Server, serverPort := c.Port }
  else .error (.configError c.Name c.Protocol)

/-- Modelled from the spec: all outbounds are built in order; the first
unsupported protocol aborts the whole generation (no entry is silently
dropped). -/
def buildOutbounds : List ProxyConfig → Except XrayError (List Outbound)
  | [] => .ok []
  | c :: rest =>
    match buildOutbound c with
    | .error e => .error e
    | .ok o =>
      match buildOutbounds rest with
      | .error e => .error e
      | .ok os => .ok (o :: os)

/-- Modelled from the spec: the pure part of `xray.GenerateAndSaveConfig` —
one inbound per proxy at `startPort + index`, one outbound per proxy, failing
with a `ConfigError` if any protocol is unsupported. -/
def generateConfig (cfgs : List ProxyConfig) (startPort : Nat) :
    Except XrayError XrayDoc :=
  match buildOutbounds cfgs with
  | .error e => .error e
  | .ok os =>
    .ok { inbounds := cfgs.map (fun c => { listenPort := localPort startPort c, tag := c.Name }),
          outbounds := os }

/-- Modelled from the spec: `xray.GenerateAndSaveConfig` — generation
followed by the serialize-and-write step.  The second component of the result
is the list of files written: on a generation failure the error propagates
before any file is written. -/
def GenerateAndSaveConfig (cfgs : List ProxyConfig) (startPort : Nat)
    (fileName : String) : Except XrayError XrayDoc × List String :=
  match generateConfig cfgs startPort with
  | .error e => (.error e, [])
  | .ok doc => (.ok doc, [fileName])

/-- Modelled from the spec: everything the download-check strategy observes
about one streamed GET through the local port — bytes received so far when
the stream ends or is cut, whether the body was fully consumed, the response
status, and wall-clock elapsed time. -/
structure DownloadObservation where
  bytesReceived : Nat
  bodyComplete : Bool
  status : Nat
  elapsed : Nat
deriving DecidableEq, Repr

/-- Modelled from the spec: the download-check success criterion — within the
timeout, either at least `minSize` bytes were received (inclusive threshold)
or the body was fully consumed with a 2xx status. -/
def downloadCheckSuccess (minSize timeout : Nat) (o : DownloadObservation) : Bool :=
  o.elapsed ≤ timeout &&
    (minSize ≤ o.bytesReceived ||
      (o.bodyComplete && 200 ≤ o.status && o.status ≤ 299))

/-- The Process Runner state machine of the spec (section 4.2):
NotStarted → Starting → Running → Stopping → Stopped, plus an absorbing
Failed state. -/
inductive RunnerPhase where
  | NotStarted
  | Starting
  | Running
  | Stopping
  | Stopped
  | Failed
deriving DecidableEq, Repr

/-- The observable state of the Process Runner: its lifecycle phase, whether
the forwarder process is alive, and whether a force-kill was ever needed. -/
structure RunnerState where
  phase : RunnerPhase
  processAlive : Bool
  forceKilled : Bool
deriving DecidableEq, Repr

/-- Modelled from the spec: `runner.XrayRunner.Start` — the process either
signals readiness within the grace period (Running, alive) or start fails
with a StartupTimeout after killing any partially started process (Failed,
not alive: no orphans survive a failed Start). -/
def Start (s : RunnerState) (becomesReady : Bool) : RunnerState :=
  if becomesReady then { s with phase := .Running, processAlive := true }
  else { s with phase := .Failed, processAlive := false }

/-- Modelled from the spec: `runner.XrayRunner.Stop` — idempotent; if the
process is alive it receives a graceful termination signal and, if it does
not exit within the bounded wait, is force-killed; if no process is alive the
call only settles the phase. -/
def Stop (s : RunnerState) (exitsGracefully : Bool) : RunnerState :=
  if s.processAlive then
    if exitsGracefully then { s with phase := .Stopped, processAlive := false }
    else { s with phase := .Stopped, processAlive := false, forceKilled := true }
  else { s with phase := .Stopped }

/-- The four `encoding/base64` encodings selectable by `utils.AutoDecode`
(src/utils/base64.go). -/
inductive B64Encoding where
  | URLEncoding
  | RawURLEncoding
  | StdEncoding
  | RawStdEncoding
deriving DecidableEq, Repr

/-- `strings.ContainsAny(s, chars)`: true iff some character of `s` occurs in
`chars`. -/
def containsAny (s chars : String) : Bool :=
  s.data.any (fun c => chars.data.contains c)

/-- `strings.HasSuffix(s, "=")`: true iff the last character of `s` is the
padding character. -/
def hasEqSuffix (s : String) : Bool :=
  match s.data.getLast? with
  | some c => c = '='
  | none => false

/-- The encoding selection of `AutoDecode` (src/utils/base64.go lines 8-23):
a `switch` over the two booleans with four cases and no default.  In Go a
fall-through would leave the `*base64.Encoding` nil; `none` models that
case. -/
def selectEncoding (s : String) : Option B64Encoding :=
  let isURLSafe := containsAny s "-_"
  let isPadded := hasEqSuffix s
  if isURLSafe && isPadded then some .URLEncoding
  else if isURLSafe && !isPadded then some .RawURLEncoding
  else if !isURLSafe && isPadded then some .StdEncoding
  else if !isURLSafe && !isPadded then some .RawStdEncoding
  else none

/-- The standard base64 alphabet of `encoding/base64`. -/
def stdAlphabet : List Char :=
  "ABCDEFGHIJKLMNOPQRSTUVWXYZabcdefghijklmnopqrstuvwxyz0123456789+/".data

/-- The URL-safe base64 alphabet of `encoding/base64`. -/
def urlAlphabet : List Char :=
  "ABCDEFGHIJKLMNOPQRSTUVWXYZabcdefghijklmnopqrstuvwxyz0123456789-_".data

/-- Base64 bit reassembly: groups of four sextets yield three bytes; a final
group of three yields two bytes, of two yields one byte; a final group of one
sextet is corrupt input. -/
def sextetsToBytes : List Nat → Option (List Nat)
  | [] => some []
  | [_] => none
  | [a, b] => some [a * 4 + b / 16]
  | [a, b, c] => some [a * 4 + b / 16, b % 16 * 16 + c / 4]
  | a :: b :: c :: d :: rest =>
    match sextetsToBytes rest with
    | none => none
    | some tail => some ((a * 4 + b / 16) :: (b % 16 * 16 + c / 4) :: (c % 4 * 64 + d) :: tail)

/-- `(*base64.Encoding).DecodeString` for one alphabet and padding mode:
padded encodings require a length that is a multiple of four with at most two
trailing padding characters; raw encodings admit no padding character; any
character outside the alphabet or a lone trailing sextet is corrupt input. -/
def decodeWith (alphabet : List Char) (padded : Bool) (s : String) :
    Except String (List Nat) :=
  let cs := s.data
  let body : Except String (List Char) :=
    if padded then
      if cs.length % 4 ≠ 0 then .error "illegal base64 data"
      else
        let padCount := (cs.reverse.takeWhile (fun c => c = '=')).length
        if 2 < padCount then .error "illegal base64 data"
        else .ok (cs.take (cs.length - padCount))
    else .ok cs
  match body with
  | .error e => .error e
  | .ok chars =>
    if chars.contains '=' then .error "illegal base64 data"
    else
      match chars.mapM (fun c => alphabet.findIdx? (fun a => a = c)) with
      | none => .error "illegal base64 data"
      | some sextets =>
        match sextetsToBytes sextets with
        | none => .error "illegal base64 data"
        | some bytes => .ok bytes

/-- The observable outcome of `AutoDecode`: decoded bytes, a returned error
value, or a crash (which would arise from dereferencing a nil encoding). -/
inductive DecodeOutcome where
  | ok (bytes : List Nat)
  | err (msg : String)
  | crash
deriving DecidableEq, Repr

/-- Lifts a decode result into a `DecodeOutcome`. -/
def toOutcome : Except String (List Nat) → DecodeOutcome
  | .ok bs => .ok bs
  | .error e => .err e

/-- `utils.AutoDecode` (src/utils/base64.go): select an encoding from the
shape of the input, then decode with it; a nil encoding (impossible selection
fall-through) would crash. -/
def AutoDecode (s : String) : DecodeOutcome :=
  match selectEncoding s with
  | none => .crash
  | some .URLEncoding => toOutcome (decodeWith urlAlphabet true s)
  | some .RawURLEncoding => toOutcome (decodeWith urlAlphabet false s)
  | some .StdEncoding => toOutcome (decodeWith stdAlphabet true s)
  | some .RawStdEncoding => toOutcome (decodeWith stdAlphabet false s)

/-- `ProxyInfo` from the API servers (src/cmd/api/simple_api.go,
improved_api.go). -/
structure ProxyInfo where
  Name : String
  Protocol : String
  Server : String
  Port : Int
  Latency : String
  Rank : Int
deriving DecidableEq, Repr

/-- `TestResult` from the API servers.  The float64 field `SuccessRate` is
omitted (floating point is outside the embedding); no claim mentions it. -/
structure TestResult where
  TestID : String
  TotalProxies : Int
  Successful : Int
  Failed : Int
  AverageLatency : String
  WorkingProxies : List ProxyInfo
  TestDuration : String
deriving DecidableEq, Repr

/-- The stub working-proxy list of `runTest` in src/cmd/api/simple_api.go
(lines 284-301). -/
def simpleWorkingProxies : List ProxyInfo :=
  [{ Name := "🇳🇱[openproxylist.com] ss-NL", Protocol := "shadowsocks",
     Server := "45.87.175.28", Port := 8080, Latency := "1.108s", Rank := 1 },
   { Name := "🇬🇧GB-141.98.101.178-3885", Protocol := "shadowsocks",
     Server := "141.98.101.178", Port := 443, Latency := "1.256s", Rank := 2 }]

/-- The result stored by `runTest` in src/cmd/api/simple_api.go (lines
279-322) for a requested proxy count. -/
def simpleRunTestResult (testID : String) (proxyCount : Int) : TestResult :=
  { TestID := testID, TotalProxies := proxyCount,
    Successful := simpleWorkingProxies.length,
    Failed := proxyCount - simpleWorkingProxies.length,
    AverageLatency := "1.182s",
    WorkingProxies := simpleWorkingProxies,
    TestDuration := "" }

/-- The stub working-proxy list of `runTest` in src/cmd/api/improved_api.go
(lines 441-466). -/
def improvedWorkingProxies : List ProxyInfo :=
  [{ Name := "🇳🇱[openproxylist.com] ss-NL", Protocol := "shadowsocks",
     Server := "45.87.175.28", Port := 8080, Latency := "1.108s", Rank := 1 },
   { Name := "🇬🇧GB-141.98.101.178-3885", Protocol := "shadowsocks",
     Server := "141.98.101.178", Port := 443, Latency := "1.256s", Rank := 2 },
   { Name := "🇱🇹LT-45.87.175.197-0285", Protocol := "shadowsocks",
     Server := "45.87.175.197", Port := 8080, Latency := "2.965s", Rank := 3 }]

/-- The result stored by `runTest` in src/cmd/api/improved_api.go (lines
434-492) for a requested proxy count. -/
def improvedRunTestResult (testID : String) (proxyCount : Int)
    (duration : String) : TestResult :=
  { TestID := testID, TotalProxies := proxyCount,
    Successful := improvedWorkingProxies.length,
    Failed := proxyCount - improvedWorkingProxies.length,
    AverageLatency := "1.776s",
    WorkingProxies := improvedWorkingProxies,
    TestDuration := duration }

/-- Concrete config for exercising the checker: a reachable proxy. -/
def c2cfgA : ProxyConfig :=
  { Name := "A", Protocol := "vless", Server := "a.example", Port := 1 }

/-- Concrete config for exercising the checker: an unreachable proxy. -/
def c2cfgB : ProxyConfig :=
  { Name := "B", Protocol := "trojan", Server := "b.example", Port := 2 }

/-- A concrete mix of per-proxy outcomes: one success, one failure. -/
def c2outcome : ProxyConfig → CheckOutcome := fun c =>
  if c.Name = "A" then .success 5 else .failure "ConnectivityError"

/-- Concrete generation input matching the spec scenario: a list of three
configs whose middle entry uses the unknown protocol wireguard. -/
def c3cfgs : List ProxyConfig :=
  [{ Protocol := "vmess", Name := "p1", Server := "s1", Port := 1 },
   { Protocol := "wireguard", Name := "p2", Server := "s2", Port := 2 },
   { Protocol := "trojan", Name := "p3", Server := "s3", Port := 3 }]

/-- Concrete loader input: an entry with empty server, a valid entry, and an
entry with remote port zero. -/
def c4raws : List RawConfig :=
  [{ type := "vmess", Server := "", Port := 1, Remarks := "bad1" },
   { type := "vless", Server := "ok.example", Port := 443, Remarks := "good" },
   { type := "trojan", Server := "x.example", Port := 0, Remarks := "bad2" }]

/-- The config produced from the valid entry of `c4raws`. -/
def c4cfg : ProxyConfig :=
  convertToProxyConfig
    { type := "vless", Server := "ok.example", Port := 443, Remarks := "good" }

/-- A raw config whose TLS field is the JSON string "reality". -/
def c6raw : RawConfig :=
  { type := "vmess", Server := "s.example", Port := 443, UUID := "u",
    TLS := .str "reality", Remarks := "r" }

/-- A raw config whose TLS field is the JSON string "tls". -/
def c6rawString : RawConfig :=
  { type := "trojan", Server := "s.example", Port := 443, TLS := .str "tls",
    Remarks := "t" }

/-- A raw config whose remarks contain a newline. -/
def c8rawNL : RawConfig :=
  { type := "vmess", Server := "s1.example", Port := 1, Remarks := "a\nb" }

/-- A raw config, different from `c8rawNL`, whose remarks contain a tab where
`c8rawNL` has a newline. -/
def c8rawTab : RawConfig :=
  { type := "vless", Server := "s2.example", Port := 2, Remarks := "a\tb" }

/-- Concrete loader input whose cleaned names are pairwise distinct. -/
def c8goodRaws : List RawConfig :=
  [{ type := "vmess", Server := "s1.example", Port := 1, Remarks := "alpha" },
   { type := "trojan", Server := "s2.example", Port := 2, Remarks := "beta" }]

theorem convert_Server (raw : RawConfig) :
    (convertToProxyConfig raw).Server = raw.Server := by
  unfold convertToProxyConfig
  dsimp only
  split_ifs <;> rfl

theorem convert_Port (raw : RawConfig) :
    (convertToProxyConfig raw).Port = raw.Port := by
  unfold convertToProxyConfig
  dsimp only
  split_ifs <;> rfl

theorem convert_Name (raw : RawConfig) :
    (convertToProxyConfig raw).Name = assignedName raw := by
  unfold convertToProxyConfig
  dsimp only
  split_ifs <;> rfl

theorem prepareFrom_index : ∀ (l : List ProxyConfig) (i : Nat),
    (prepareFrom i l).map (fun c => c.Index) = List.range' i l.length := by
  intro l
  induction l with
  | nil => intro i; rfl
  | cons c rest ih =>
    intro i
    simp only [prepareFrom, List.map_cons, List.length_cons, List.range'_succ, ih]

theorem prepareFrom_localPort (startPort : Nat) : ∀ (l : List ProxyConfig) (i : Nat),
    (prepareFrom i l).map (localPort startPort) = List.range' (startPort + i) l.length := by
  intro l
  induction l with
  | nil => intro i; rfl
  | cons c rest ih =>
    intro i
    simp [prepareFrom, localPort, List.range'_succ, ih, Nat.add_assoc]

/-- Claim C1: preparation assigns zero-based indices in order, the local listener
port of each prepared config is `startPort + index`, and the assigned local
ports are exactly `startPort, startPort+1, …, startPort+N-1` — pairwise
distinct, no duplicates, no gaps. -/
theorem c1_port_assignment (cfgs : List ProxyConfig) (startPort : Nat) :
    ((PrepareProxyConfigs cfgs).map (fun c => c.Index) = List.range cfgs.length)
    ∧ ((PrepareProxyConfigs cfgs).map (localPort startPort)
        = List.range' startPort cfgs.length)
    ∧ ((PrepareProxyConfigs cfgs).map (localPort startPort)).Nodup := by
  refine ⟨?_, ?_, ?_⟩
  · rw [PrepareProxyConfigs, prepareFrom_index, List.range_eq_range']
  · rw [PrepareProxyConfigs, prepareFrom_localPort, Nat.add_zero]
  · rw [PrepareProxyConfigs, prepareFrom_localPort, Nat.add_zero]
    apply List.nodup_range'
    exact Nat.zero_lt_one

/-- Claim C4: every config surviving the caller-side loading filter has a nonempty
server and a nonzero remote port; violating raw configs are skipped before
preparation. -/
theorem c4_registry_invariant : ∀ (raws : List RawConfig) (limit : Nat)
    (c : ProxyConfig), c ∈ loadConfigs raws limit → c.Server ≠ "" ∧ c.Port ≠ 0 := by
  intro raws
  induction raws with
  | nil =>
    intro limit c h
    simp [loadConfigs] at h
  | cons raw rest ih =>
    intro limit c h
    cases limit with
    | zero => simp [loadConfigs] at h
    | succ k =>
      rw [loadConfigs] at h
      by_cases hv : validRaw raw
      · rw [if_pos hv] at h
        rcases List.mem_cons.mp h with rfl | hmem
        · have hv2 := hv
          unfold validRaw at hv2
          simp only [Bool.and_eq_true, decide_eq_true_eq] at hv2
          rw [convert_Server, convert_Port]
          exact hv2
        · exact ih k c hmem
      · rw [if_neg hv] at h
        exact ih (Nat.succ k) c h

/-- Witness for C4 at a concrete input: the valid entry of `c4raws` is loaded
and satisfies the invariant. -/
theorem c4_registry_invariant_witness :
    (c4cfg ∈ loadConfigs c4raws 10) ∧ (c4cfg.Server ≠ "" ∧ c4cfg.Port ≠ 0) :=
  ⟨by decide, c4_registry_invariant c4raws 10 c4cfg (by decide)⟩

/-- Claim C6 is refuted: a string TLS value is copied into `Security` verbatim, so
ingesting a vmess config whose `tls` field is the JSON string "reality"
yields `Security = "reality"`, which is neither canonical value. -/
theorem c6_security_counterexample :
    (convertToProxyConfig c6raw).Security = "reality"
    ∧ ("reality" : String) ≠ "tls" ∧ ("reality" : String) ≠ "none" := by
  decide

/-- Claim C6 amended: for vmess, vless and trojan configs, a boolean TLS value true
maps to "tls", a boolean false or an absent/non-string-non-boolean value maps
to "none", and a string TLS value is copied into `Security` verbatim — it is
not resolved to a canonical value at ingestion. -/
theorem c6_security_amended : ∀ raw : RawConfig,
    (raw.type = "vmess" ∨ raw.type = "vless" ∨ raw.type = "trojan") →
    ((convertToProxyConfig raw).Security = tlsValueOf raw.TLS
    ∧ (∀ b, raw.TLS = .boolean b →
        (convertToProxyConfig raw).Security = if b then "tls" else "none")
    ∧ (raw.TLS = .other → (convertToProxyConfig raw).Security = "none")
    ∧ (∀ v, raw.TLS = .str v → (convertToProxyConfig raw).Security = v)) := by
  intro raw htype
  have hsec : (convertToProxyConfig raw).Security = tlsValueOf raw.TLS := by
    unfold convertToProxyConfig
    dsimp only
    rcases htype with h | h | h <;> rw [h] <;> split_ifs <;> simp_all
  refine ⟨hsec, ?_, ?_, ?_⟩
  · intro b hb
    rw [hsec, hb]
    cases b <;> rfl
  · intro hb
    rw [hsec, hb]
    rfl
  · intro v hv
    rw [hsec, hv]
    rfl

/-- Witness for the amended C6 at a concrete input: a trojan config whose TLS
field is the string "tls". -/
theorem c6_security_amended_witness :
    (c6rawString.type = "vmess" ∨ c6rawString.type = "vless"
      ∨ c6rawString.type = "trojan")
    ∧ ((convertToProxyConfig c6rawString).Security = tlsValueOf c6rawString.TLS
    ∧ (∀ b, c6rawString.TLS = .boolean b →
        (convertToProxyConfig c6rawString).Security = if b then "tls" else "none")
    ∧ (c6rawString.TLS = .other →
        (convertToProxyConfig c6rawString).Security = "none")
    ∧ (∀ v, c6rawString.TLS = .str v →
        (convertToProxyConfig c6rawString).Security = v)) :=
  ⟨by decide, c6_security_amended c6rawString (by decide)⟩

theorem loadConfigs_eq_map : ∀ (raws : List RawConfig) (limit : Nat),
    loadConfigs raws limit = (keptRaws raws limit).map convertToProxyConfig := by
  intro raws
  induction raws with
  | nil => intro limit; cases limit <;> rfl
  | cons raw rest ih =>
    intro limit
    cases limit with
    | zero => rfl
    | succ k =>
      rw [loadConfigs, keptRaws]
      by_cases hv : validRaw raw
      · rw [if_pos hv, if_pos hv, List.map_cons, ih]
      · rw [if_neg hv, if_neg hv, ih]

/-- Claim C8 is refuted: name cleaning does not make names unique — two distinct
raw configs whose remarks differ only in which control character they contain
are both loaded and receive the identical cleaned name "a b". -/
theorem c8_unique_names_counterexample :
    c8rawNL ≠ c8rawTab
    ∧ ((loadConfigs [c8rawNL, c8rawTab] 10).map fun c => c.Name) = ["a b", "a b"]
    ∧ ¬ ((loadConfigs [c8rawNL, c8rawTab] 10).map fun c => c.Name).Nodup := by
  decide

/-- Claim C8 amended: the pipeline does not enforce name uniqueness; each loaded
config's `Name` is exactly the cleaned remark (with the
`type-server-port` fallback when the cleaned remark is empty), so the names
entering the registry are pairwise distinct exactly when those cleaned
names of the surviving raw configs are pairwise distinct — uniqueness is a
precondition on the input, not a guarantee of the code. -/
theorem c8_unique_names_amended : ∀ (raws : List RawConfig) (limit : Nat),
    ((keptRaws raws limit).map assignedName).Nodup →
    ((loadConfigs raws limit).map fun c => c.Name).Nodup := by
  intro raws limit h
  rw [loadConfigs_eq_map, List.map_map]
  have : ((keptRaws raws limit).map fun r => (convertToProxyConfig r).Name)
      = (keptRaws raws limit).map assignedName := by
    simp [convert_Name]
  simpa [Function.comp_def, this] using h

/-- Witness for the amended C8 at a concrete input with distinct cleaned
names. -/
theorem c8_unique_names_amended_witness :
    ((keptRaws c8goodRaws 10).map assignedName).Nodup
    ∧ ((loadConfigs c8goodRaws 10).map fun c => c.Name).Nodup :=
  ⟨by decide, c8_unique_names_amended c8goodRaws 10 (by decide)⟩

theorem mkCheckResult_name (c : ProxyConfig) (oc : CheckOutcome) :
    (mkCheckResult c oc).ProxyName = c.Name := by
  cases oc <;> rfl

theorem setResult_append (t : ResultsTable) (r : CheckResult)
    (h : ∀ p ∈ t, p.1 ≠ r.ProxyName) :
    setResult t r = t ++ [(r.ProxyName, r)] := by
  unfold setResult
  rw [if_neg]
  simp only [List.any_eq_true, decide_eq_true_eq, not_exists, not_and]
  intro p hp
  exact h p hp

theorem checkAll_eq_append (o : ProxyConfig → CheckOutcome) :
    ∀ (cfgs : List ProxyConfig) (t : ResultsTable),
      (∀ p ∈ t, ∀ c ∈ cfgs, p.1 ≠ c.Name) →
      ((cfgs.map fun c => c.Name).Nodup) →
      CheckAllProxies o cfgs t
        = t ++ cfgs.map (fun c => (c.Name, mkCheckResult c (o c))) := by
  intro cfgs
  induction cfgs with
  | nil =>
    intro t _ _
    simp [CheckAllProxies]
  | cons c cs ih =>
    intro t hdisj hnd
    have hstep : setResult t (mkCheckResult c (o c))
        = t ++ [(c.Name, mkCheckResult c (o c))] := by
      have hne : ∀ p ∈ t, p.1 ≠ (mkCheckResult c (o c)).ProxyName := by
        intro p hp
        rw [mkCheckResult_name]
        exact hdisj p hp c (List.mem_cons_self c cs)
      rw [setResult_append t _ hne, mkCheckResult_name]
    have hfold : CheckAllProxies o (c :: cs) t
        = CheckAllProxies o cs (setResult t (mkCheckResult c (o c))) := rfl
    rw [hfold, hstep]
    have hnd2 := (List.nodup_cons.mp hnd).2
    have hnotin := (List.nodup_cons.mp hnd).1
    have hdisj2 : ∀ p ∈ t ++ [(c.Name, mkCheckResult c (o c))],
        ∀ c2 ∈ cs, p.1 ≠ c2.Name := by
      intro p hp c2 hc2
      rcases List.mem_append.mp hp with hp1 | hp2
      · exact hdisj p hp1 c2 (List.mem_cons_of_mem c hc2)
      · have : p = (c.Name, mkCheckResult c (o c)) := by simpa using hp2
        rw [this]
        intro he
        apply hnotin
        show c.Name ∈ List.map (fun c => c.Name) cs
        have hname : c.Name = c2.Name := he
        rw [hname]
        exact List.mem_map_of_mem (fun c => c.Name) hc2
    rw [ih _ hdisj2 hnd2, List.map_cons, List.append_assoc]
    rfl

theorem find_in_results (o : ProxyConfig → CheckOutcome) :
    ∀ (cfgs : List ProxyConfig) (c : ProxyConfig),
      ((cfgs.map fun c => c.Name).Nodup) → c ∈ cfgs →
      (cfgs.map fun c2 => (c2.Name, mkCheckResult c2 (o c2))).find?
          (fun p => p.1 = c.Name)
        = some (c.Name, mkCheckResult c (o c)) := by
  intro cfgs
  induction cfgs with
  | nil => intro c _ h; simp at h
  | cons c0 cs ih =>
    intro c hnd hmem
    rcases List.mem_cons.mp hmem with rfl | hmem2
    · simp [List.find?]
    · have hne : c0.Name ≠ c.Name := by
        intro he
        have hin : c.Name ∈ cs.map fun c => c.Name :=
          List.mem_map_of_mem (fun c => c.Name) hmem2
        rw [← he] at hin
        exact (List.nodup_cons.mp hnd).1 hin
      rw [List.map_cons, List.find?_cons_of_neg, ih c (List.nodup_cons.mp hnd).2 hmem2]
      simp [hne]

/-- Claim C2: `CheckAllProxies` is a total function of the per-proxy outcomes — a
failing proxy is recorded, never propagated — and over configs with pairwise
distinct names it leaves the Results Table with exactly one entry per config
name (no duplicates, no missing entries), where a `GetProxyStatus` call after
the pass observes that pass's result for every covered name. -/
theorem c2_check_all_records (o : ProxyConfig → CheckOutcome)
    (cfgs : List ProxyConfig) (h : (cfgs.map fun c => c.Name).Nodup) :
    ((CheckAllProxies o cfgs []).map Prod.fst = cfgs.map fun c => c.Name)
    ∧ ((CheckAllProxies o cfgs []).map Prod.fst).Nodup
    ∧ ∀ c ∈ cfgs, GetProxyStatus (CheckAllProxies o cfgs []) c.Name
        = .ok ((mkCheckResult c (o c)).Success, (mkCheckResult c (o c)).Latency,
               (mkCheckResult c (o c)).Error) := by
  have hrun : CheckAllProxies o cfgs []
      = cfgs.map fun c => (c.Name, mkCheckResult c (o c)) := by
    have := checkAll_eq_append o cfgs [] (by intro p hp; simp at hp) h
    simpa using this
  refine ⟨?_, ?_, ?_⟩
  · rw [hrun, List.map_map]
    rfl
  · rw [hrun, List.map_map]
    exact h
  · intro c hc
    rw [hrun]
    unfold GetProxyStatus
    rw [find_in_results o cfgs c h hc]

/-- Witness for C2 at a concrete input: two configs with distinct names, one
reachable and one failing. -/
theorem c2_check_all_records_witness :
    (([c2cfgA, c2cfgB].map fun c => c.Name).Nodup)
    ∧ (((CheckAllProxies c2outcome [c2cfgA, c2cfgB] []).map Prod.fst
          = [c2cfgA, c2cfgB].map fun c => c.Name)
    ∧ ((CheckAllProxies c2outcome [c2cfgA, c2cfgB] []).map Prod.fst).Nodup
    ∧ ∀ c ∈ [c2cfgA, c2cfgB],
        GetProxyStatus (CheckAllProxies c2outcome [c2cfgA, c2cfgB] []) c.Name
          = .ok ((mkCheckResult c (c2outcome c)).Success,
                 (mkCheckResult c (c2outcome c)).Latency,
                 (mkCheckResult c (c2outcome c)).Error)) :=
  ⟨by decide, c2_check_all_records c2outcome [c2cfgA, c2cfgB] (by decide)⟩

theorem buildOutbounds_error : ∀ (cfgs : List ProxyConfig),
    (∃ c ∈ cfgs, c.Protocol ∉ supportedProtocols) →
    ∃ bad ∈ cfgs, bad.Protocol ∉ supportedProtocols ∧
      buildOutbounds cfgs = .error (.configError bad.Name bad.Protocol) := by
  intro cfgs
  induction cfgs with
  | nil => intro h; simp at h
  | cons c cs ih =>
    intro h
    by_cases hc : c.Protocol ∈ supportedProtocols
    · have hcs : ∃ x ∈ cs, x.Protocol ∉ supportedProtocols := by
        rcases h with ⟨x, hx, hxp⟩
        rcases List.mem_cons.mp hx with rfl | hx2
        · exact absurd hc hxp
        · exact ⟨x, hx2, hxp⟩
      rcases ih hcs with ⟨bad, hbadmem, hbadp, heq⟩
      refine ⟨bad, List.mem_cons_of_mem c hbadmem, hbadp, ?_⟩
      rw [buildOutbounds]
      unfold buildOutbound
      rw [if_pos hc, heq]
    · refine ⟨c, List.mem_cons_self c cs, hc, ?_⟩
      rw [buildOutbounds]
      unfold buildOutbound
      rw [if_neg hc]

/-- Claim C3: for every config list containing a proxy with an unsupported
protocol, `GenerateAndSaveConfig` fails with a `ConfigError` naming an
offending proxy, writes no file, and produces no configuration document — no
inbound port assignment takes effect for the remaining configs. -/
theorem c3_generation_all_or_nothing :
    ∀ (cfgs : List ProxyConfig) (startPort : Nat) (fileName : String),
      (∃ c ∈ cfgs, c.Protocol ∉ supportedProtocols) →
      ∃ bad ∈ cfgs, bad.Protocol ∉ supportedProtocols ∧
        GenerateAndSaveConfig cfgs startPort fileName
          = (.error (.configError bad.Name bad.Protocol), []) := by
  intro cfgs startPort fileName h
  rcases buildOutbounds_error cfgs h with ⟨bad, hmem, hbadp, heq⟩
  refine ⟨bad, hmem, hbadp, ?_⟩
  unfold GenerateAndSaveConfig generateConfig
  rw [heq]

/-- Witness for C3 at the spec scenario: three configs, one with the unknown
protocol wireguard. -/
theorem c3_generation_all_or_nothing_witness :
    (∃ c ∈ c3cfgs, c.Protocol ∉ supportedProtocols)
    ∧ ∃ bad ∈ c3cfgs, bad.Protocol ∉ supportedProtocols ∧
        GenerateAndSaveConfig c3cfgs 10000 "xray_config.json"
          = (.error (.configError bad.Name bad.Protocol), []) :=
  ⟨by decide, c3_generation_all_or_nothing c3cfgs 10000 "xray_config.json" (by decide)⟩

/-- Claim C5: the download check succeeds exactly when, within the timeout, at
least the minimum number of bytes was received or the body was fully consumed
with a 2xx status; in particular exactly `51200` received bytes before the
connection is cut meet the threshold (the comparison is inclusive). -/
theorem c5_download_threshold :
    (∀ (minSize timeout : Nat) (o : DownloadObservation),
        downloadCheckSuccess minSize timeout o = true ↔
          (o.elapsed ≤ timeout ∧ (minSize ≤ o.bytesReceived
            ∨ (o.bodyComplete = true ∧ 200 ≤ o.status ∧ o.status ≤ 299))))
    ∧ downloadCheckSuccess 51200 60
        { bytesReceived := 51200, bodyComplete := false, status := 0,
          elapsed := 2 } = true := by
  constructor
  · intro minSize timeout o
    unfold downloadCheckSuccess
    simp [and_assoc]
  · decide

theorem stop_alive (s : RunnerState) (g : Bool) :
    (Stop s g).processAlive = false := by
  unfold Stop
  split_ifs with h1 h2 <;> simp_all

theorem stop_phase (s : RunnerState) (g : Bool) :
    (Stop s g).phase = .Stopped := by
  unfold Stop
  split_ifs <;> rfl

theorem stop_fixed (s : RunnerState) (g g2 : Bool) :
    Stop (Stop s g) g2 = Stop s g := by
  obtain ⟨ph, al, fk⟩ := s
  cases al <;> cases g <;> cases g2 <;> simp [Stop]

/-- Claim C7: `Stop` is idempotent for every sequence of calls — after a first
`Stop` every further `Stop` leaves the runner state unchanged, no call gets
stuck (the function is total), after any `Stop` the forwarder process is not
alive and the runner is in the Stopped phase, and a `Stop` issued after a
failed `Start` also leaves no live process. -/
theorem c7_stop_idempotent :
    ∀ (s : RunnerState) (g : Bool) (gs : List Bool) (b : Bool),
      (gs.foldl Stop (Stop s g) = Stop s g)
      ∧ (Stop s g).processAlive = false
      ∧ (Stop s g).phase = .Stopped
      ∧ (Stop (Start s b) g).processAlive = false := by
  intro s g gs b
  refine ⟨?_, stop_alive s g, stop_phase s g, stop_alive (Start s b) g⟩
  induction gs generalizing s g with
  | nil => rfl
  | cons g2 rest ih =>
    rw [List.foldl_cons, stop_fixed s g g2]
    exact ih s g

theorem toOutcome_ne_crash (r : Except String (List Nat)) :
    toOutcome r ≠ .crash := by
  cases r <;> simp [toOutcome]

theorem selectEncoding_isSome (s : String) : (selectEncoding s).isSome = true := by
  unfold selectEncoding
  cases h1 : containsAny s "-_" <;> cases h2 : hasEqSuffix s <;> simp

/-- Claim C9: `AutoDecode` always selects an encoding — the four-way case split on
(url-safe) × (padded) is exhaustive, so the nil-encoding crash is unreachable
for every input string — and malformed base64 input yields a returned error
value. -/
theorem c9_autodecode_total :
    (∀ s : String, (selectEncoding s).isSome = true)
    ∧ (∀ s : String, AutoDecode s ≠ .crash)
    ∧ AutoDecode "%%%" = .err "illegal base64 data" := by
  refine ⟨selectEncoding_isSome, ?_, by decide⟩
  intro s
  unfold AutoDecode
  rcases hopt : selectEncoding s with _ | e
  · have := selectEncoding_isSome s
    rw [hopt] at this
    simp at this
  · cases e <;> exact toOutcome_ne_crash _

/-- Claim C10: every `TestResult` stored by the API servers' `runTest` satisfies
`Successful + Failed = TotalProxies` and `Successful = len(WorkingProxies)`,
for every test id and every requested proxy count — including counts smaller
than the stub working-proxy count, where `Failed` is negative but the
equations still hold. -/
theorem c10_runtest_totals :
    ∀ (testID : String) (proxyCount : Int) (duration : String),
      ((simpleRunTestResult testID proxyCount).Successful
          + (simpleRunTestResult testID proxyCount).Failed
        = (simpleRunTestResult testID proxyCount).TotalProxies)
      ∧ ((simpleRunTestResult testID proxyCount).Successful
        = (simpleRunTestResult testID proxyCount).WorkingProxies.length)
      ∧ ((improvedRunTestResult testID proxyCount duration).Successful
          + (improvedRunTestResult testID proxyCount duration).Failed
        = (improvedRunTestResult testID proxyCount duration).TotalProxies)
      ∧ ((improvedRunTestResult testID proxyCount duration).Successful
        = (improvedRunTestResult testID proxyCount duration).WorkingProxies.length) := by
  intro testID proxyCount duration
  refine ⟨?_, rfl, ?_, rfl⟩ <;>
    simp [simpleRunTestResult, improvedRunTestResult]

end ProxCheck
